import Mathlib

/-!
# Verification of the SentinelOne paginated-fetch example

Shallow embedding of `src/sentinelone_example.py`: the cursor-pagination
fetch loop `fetch_paginated_api_data` and the per-site orchestration loop
`extract_alerts`.  The HTTP transport is modelled by an explicit script of
responses (one entry consumed per GET issued); the functions return a trace
recording the outcome, the query-parameter dictionaries of every request
issued, the arguments passed to the page callback, and the final state of
the caller-supplied parameter dictionary.
-/

namespace Sentinelone

/-- A Python query-parameter value: a string or an integer
(the source uses `"siteIds": site_id` and `"limit": 1000`). -/
inductive PVal where
  | str (v : String)
  | int (v : Int)
deriving DecidableEq

/-- A Python dict with string keys, as an insertion-ordered association list
with unique keys. -/
def AList (β : Type) : Type := List (String × β)

/-- Dict lookup, `d[k]` / `d.get(k)`: first (unique) binding of `k`. -/
def alistGet {β : Type} (d : List (String × β)) (k : String) : Option β :=
  match d with
  | [] => none
  | (k', v) :: rest => if k' = k then some v else alistGet rest k

/-- Dict update `d[k] = v`: replaces in place an existing binding,
or appends a new binding at the end (Python insertion order). -/
def alistSet {β : Type} (d : List (String × β)) (k : String) (v : β) :
    List (String × β) :=
  match d with
  | [] => [(k, v)]
  | (k', v') :: rest =>
      if k' = k then (k', v) :: rest else (k', v') :: alistSet rest k v

/-- The `data` field of the JSON envelope: either a plain JSON list of items,
or an object wrapping the list under a `sites` key (the shape the `sites`
endpoint returns). -/
inductive DataVal (α : Type) where
  | plain (items : List α)
  | sitesObj (items : List α)
deriving DecidableEq

/-- A parsed JSON envelope: `result["data"]` plus
`result.get("pagination", ...).get("nextCursor")` (a missing `pagination`
object or a missing `nextCursor` key both give `none`). -/
structure Envelope (α : Type) where
  data : DataVal α
  nextCursor : Option String
deriving DecidableEq

/-- One scripted HTTP exchange: the GET raises a `RequestException`
(`transportFailure`), or returns a non-success status so that
`raise_for_status` raises (`statusFailure`), or succeeds with a JSON body. -/
inductive HttpResponse (α : Type) where
  | transportFailure
  | statusFailure
  | ok (env : Envelope α)
deriving DecidableEq

/-- The Python exceptions the two functions can raise.  `valueError` is the
`raise ValueError` on an empty site id (the spec's `InvalidParameter`);
`transportError` is `requests.exceptions.RequestException` (the spec's
`TransportError`); `keyError` is a failed dict lookup; `typeError` stands for
an envelope whose `data` shape does not match the endpoint's unwrap rule. -/
inductive PyErr where
  | keyError
  | valueError
  | transportError
  | typeError
deriving DecidableEq

/-- What `fetch_paginated_api_data` produces: the returned value
(`return all_data`, a bare list of items) or the exception it raises. -/
inductive FetchOutcome (α : Type) where
  | ok (items : List α)
  | error (e : PyErr)
deriving DecidableEq

/-- Trace of one `fetch_paginated_api_data` call: its outcome, the
query-parameter dict of every HTTP request issued (in order), the cumulative
page counts passed to the page callback (in order; empty when no callback is
supplied), and the caller's parameter dict as it stands when the call ends
(the dict is aliased on the first iteration, so it can be mutated). -/
structure FetchTrace (α : Type) where
  outcome : FetchOutcome α
  requests : List (List (String × PVal))
  callbackArgs : List Nat
  finalParams : List (String × PVal)
deriving DecidableEq

/-- `data_chunk = result["data"]["sites"] if is_sites else result["data"]`:
the per-endpoint unwrap rule.  A shape that does not match the rule (which no
claim exercises) is modelled as `none`, i.e. a runtime type error. -/
def extractChunk {α : Type} (isSites : Bool) (d : DataVal α) : Option (List α) :=
  match isSites, d with
  | true, DataVal.sitesObj items => some items
  | true, DataVal.plain _ => none
  | false, DataVal.plain items => some items
  | false, DataVal.sitesObj _ => none

/-- Python truthiness of the cursor variable: `None` and `""` are falsy. -/
def cursorFalsy : Option String → Bool
  | none => true
  | some c => decide (c = "")

/-- `current_params = {**params, "cursor": cursor} if cursor else params`:
with a falsy cursor this is the caller's dict itself (an alias), otherwise a
fresh copy with the cursor merged in. -/
def currentParamsFor (params : List (String × PVal)) (cursor : Option String) :
    List (String × PVal) :=
  match cursor with
  | none => params
  | some c => if c = "" then params else alistSet params "cursor" (PVal.str c)

/-- Mutable state of the `while True` loop in `fetch_paginated_api_data`:
the caller's `params` dict (mutable via the first-iteration alias), the
`all_data` accumulator, the `page_count` counter, plus the trace of requests
issued and callback invocations so far. -/
structure LoopState (α : Type) where
  params : List (String × PVal)
  allData : List α
  pageCount : Nat
  requests : List (List (String × PVal))
  callbackArgs : List Nat

/-- The `while True` loop of `fetch_paginated_api_data`, one recursive call
per iteration, consuming one scripted response per GET.  An exhausted script
models an endpoint that stops answering: the GET times out, which is a
`RequestException`.  On the first iteration `current_params` aliases the
caller's dict, so the `current_params["cursor"] = cursor` write at the bottom
of the loop body mutates `params` exactly when the iteration started with a
falsy cursor. -/
def fetchLoop {α : Type} (isSites hasCallback : Bool) (cursor : Option String)
    (responses : List (HttpResponse α)) (st : LoopState α) : FetchTrace α :=
  let current := currentParamsFor st.params cursor
  match responses with
  | [] =>
      ⟨FetchOutcome.error PyErr.transportError, st.requests ++ [current],
        st.callbackArgs, st.params⟩
  | resp :: rest =>
    match resp with
    | HttpResponse.transportFailure =>
        ⟨FetchOutcome.error PyErr.transportError, st.requests ++ [current],
          st.callbackArgs, st.params⟩
    | HttpResponse.statusFailure =>
        ⟨FetchOutcome.error PyErr.transportError, st.requests ++ [current],
          st.callbackArgs, st.params⟩
    | HttpResponse.ok env =>
      match extractChunk isSites env.data with
      | none =>
          ⟨FetchOutcome.error PyErr.typeError, st.requests ++ [current],
            st.callbackArgs, st.params⟩
      | some chunk =>
        let allData := st.allData ++ chunk
        let pageCount := st.pageCount + 1
        let cbArgs :=
          if hasCallback then st.callbackArgs ++ [pageCount] else st.callbackArgs
        match env.nextCursor with
        | none =>
            ⟨FetchOutcome.ok allData, st.requests ++ [current], cbArgs, st.params⟩
        | some c =>
          if c = "" then
            ⟨FetchOutcome.ok allData, st.requests ++ [current], cbArgs, st.params⟩
          else
            let params' :=
              if cursorFalsy cursor then alistSet st.params "cursor" (PVal.str c)
              else st.params
            fetchLoop isSites hasCallback (some c) rest
              ⟨params', allData, pageCount, st.requests ++ [current], cbArgs⟩

/-- `fetch_paginated_api_data(params, endpoint, page_callback)`.  The empty
site-id check `params["siteIds"] == ""` runs before the loop: a missing key
raises `KeyError` and an empty string raises `ValueError`, both before any
request is issued. -/
def fetch_paginated_api_data {α : Type} (params : List (String × PVal))
    (endpoint : String) (hasCallback : Bool)
    (responses : List (HttpResponse α)) : FetchTrace α :=
  match alistGet params "siteIds" with
  | none => ⟨FetchOutcome.error PyErr.keyError, [], [], params⟩
  | some v =>
    if v = PVal.str "" then
      ⟨FetchOutcome.error PyErr.valueError, [], [], params⟩
    else
      fetchLoop (decide (endpoint = "sites")) hasCallback none responses
        ⟨params, [], 0, [], []⟩

/-! ## The orchestrator `extract_alerts` -/

/-- The four display states a site's `progress_data` entry goes through
(`Pending` exists only in the spec's state machine; in the source a site's
entry is created directly in the `Running` state). -/
inductive SiteState where
  | running
  | completed
  | failed
deriving DecidableEq

/-- One site's `progress_data[site_id]` record: domain name, total records,
pages fetched so far (written by the page callback), and status. -/
structure SiteStatus where
  domainName : String
  totalRecords : Nat
  pages : Nat
  state : SiteState
deriving DecidableEq

/-- The value `extract_alerts` produces: the `results` list it returns, or
the exception that escapes it (anything but `ValueError`, which is caught
per site, and `KeyboardInterrupt`, which is caught at the boundary). -/
inductive RunResult (α : Type) where
  | returned (items : List α)
  | raised (e : PyErr)
deriving DecidableEq

/-- Trace of one `extract_alerts` call: its result, the final
`progress_data` dict, the site ids passed to `fetch_paginated_api_data` in
order, and whether a `KeyboardInterrupt` was caught. -/
structure RunTrace (α : Type) where
  result : RunResult α
  statuses : List (String × SiteStatus)
  fetchedSites : List String
  interrupted : Bool
deriving DecidableEq

/-- `params={"siteIds": site_id, "limit": 1000}` as built per site. -/
def mkSiteParams (siteId : String) : List (String × PVal) :=
  [("siteIds", PVal.str siteId), ("limit", PVal.int 1000)]

/-- The endpoint `extract_alerts` fetches. -/
def alertsEndpoint : String := "cloud-detection/alerts"

/-- The fetch call `extract_alerts` makes for one site, under an
environment assigning each site id its scripted responses. -/
def siteFetch {α : Type} (responsesFor : String → List (HttpResponse α))
    (siteId : String) : FetchTrace α :=
  fetch_paginated_api_data (mkSiteParams siteId) alertsEndpoint true
    (responsesFor siteId)

/-- `sites_to_process = list(site_map.items())[5:40]`. -/
def sitesWindow (siteMap : List (String × String)) : List (String × String) :=
  (siteMap.drop 5).take 35

/-- The `for site_id, domain_name in sites_to_process` loop of
`extract_alerts`.  `interruptBefore = some i` delivers a
`KeyboardInterrupt` after `i` window iterations have completed and before
iteration `i` starts (the only points where the spec's model observes the
signal); the handler at the orchestration boundary catches it and returns
the partial `results`.  A `ValueError` from the site's fetch is caught in
the per-site `except` (status `Failed`, zero records, loop continues); any
other exception escapes the function. -/
def runLoop {α : Type} (responsesFor : String → List (HttpResponse α))
    (interruptBefore : Option Nat) (sites : List (String × String)) (i : Nat)
    (results : List α) (statuses : List (String × SiteStatus))
    (fetched : List String) : RunTrace α :=
  match sites with
  | [] => ⟨RunResult.returned results, statuses, fetched, false⟩
  | (siteId, domainName) :: rest =>
    if interruptBefore = some i then
      ⟨RunResult.returned results, statuses, fetched, true⟩
    else
      let statuses1 := alistSet statuses siteId ⟨domainName, 0, 0, SiteState.running⟩
      let t := siteFetch responsesFor siteId
      let pages := t.callbackArgs.getLastD 0
      let statuses2 := alistSet statuses1 siteId ⟨domainName, 0, pages, SiteState.running⟩
      let fetched' := fetched ++ [siteId]
      match t.outcome with
      | FetchOutcome.ok items =>
          let statuses3 := alistSet statuses2 siteId
            ⟨domainName, items.length, pages, SiteState.completed⟩
          runLoop responsesFor interruptBefore rest (i + 1) (results ++ items)
            statuses3 fetched'
      | FetchOutcome.error PyErr.valueError =>
          let statuses3 := alistSet statuses2 siteId
            ⟨domainName, 0, pages, SiteState.failed⟩
          runLoop responsesFor interruptBefore rest (i + 1) results statuses3 fetched'
      | FetchOutcome.error e =>
          ⟨RunResult.raised e, statuses2, fetched', false⟩

/-- `extract_alerts(site_map)`, under an environment assigning each site id
its scripted responses and an optional interrupt point. -/
def extract_alerts {α : Type} (siteMap : List (String × String))
    (responsesFor : String → List (HttpResponse α))
    (interruptBefore : Option Nat) : RunTrace α :=
  runLoop responsesFor interruptBefore (sitesWindow siteMap) 0 [] [] []

/-! ## The shape of a well-formed paginated response script -/

/-- The cursor value carried by one request's query-parameter dict. -/
def requestCursor (r : List (String × PVal)) : Option PVal := alistGet r "cursor"

/-- A response script of `pages` whose page `i` carries the items `chunks i`
in the shape the endpoint's unwrap rule expects, where every page but the
last supplies a truthy `nextCursor` (listed in `cursors`, in order) and the
last page supplies none. -/
def ChainedScript {α : Type} (isSites : Bool) :
    List (Envelope α) → List (List α) → List String → Prop
  | [p], [c], [] =>
      extractChunk isSites p.data = some c ∧ p.nextCursor = none
  | p :: q :: ps, c :: cs, cur :: curs =>
      extractChunk isSites p.data = some c ∧ p.nextCursor = some cur ∧
        cur ≠ "" ∧ ChainedScript isSites (q :: ps) cs curs
  | _, _, _ => False

/-- A run of pages each of which extracts under the endpoint's unwrap rule
and supplies a truthy next-page cursor (a prefix of a pagination chain that
has not yet terminated). -/
def ChainedInit {α : Type} (isSites : Bool) : List (Envelope α) → Prop
  | [] => True
  | p :: ps => (∃ c, extractChunk isSites p.data = some c) ∧
      (∃ cur, p.nextCursor = some cur ∧ cur ≠ "") ∧ ChainedInit isSites ps

/-! ## Per-site outcome abstractions for the orchestrator -/

/-- The site's fetch ends in an outcome the orchestrator survives: a normal
return, or the `ValueError` its per-site `except` catches. -/
def siteHandled {α : Type} (rf : String → List (HttpResponse α)) (s : String) : Bool :=
  match (siteFetch rf s).outcome with
  | FetchOutcome.ok _ => true
  | FetchOutcome.error PyErr.valueError => true
  | FetchOutcome.error _ => false

/-- The site's fetch returns normally. -/
def siteCompleted {α : Type} (rf : String → List (HttpResponse α)) (s : String) : Bool :=
  match (siteFetch rf s).outcome with
  | FetchOutcome.ok _ => true
  | FetchOutcome.error _ => false

/-- The items the site's fetch contributes to the aggregate. -/
def siteItems {α : Type} (rf : String → List (HttpResponse α)) (s : String) : List α :=
  match (siteFetch rf s).outcome with
  | FetchOutcome.ok items => items
  | FetchOutcome.error _ => []

/-- The page count the site's page callback last reported (0 if it never ran). -/
def sitePages {α : Type} (rf : String → List (HttpResponse α)) (s : String) : Nat :=
  (siteFetch rf s).callbackArgs.getLastD 0

/-- The final `progress_data` record of a site the orchestrator survives. -/
def siteRecord {α : Type} (rf : String → List (HttpResponse α)) (s dom : String) :
    SiteStatus :=
  match (siteFetch rf s).outcome with
  | FetchOutcome.ok items => ⟨dom, items.length, sitePages rf s, SiteState.completed⟩
  | FetchOutcome.error _ => ⟨dom, 0, sitePages rf s, SiteState.failed⟩

/-! ## Concrete fixtures used by witnesses and counterexamples -/

/-- A valid parameter dict with a non-empty site id. -/
def paramsW : List (String × PVal) := [("siteIds", PVal.str "s1"), ("limit", PVal.int 1000)]

/-- A parameter dict missing the `siteIds` key. -/
def paramsNoSite : List (String × PVal) := [("limit", PVal.int 1000)]

/-- A parameter dict with an empty site id. -/
def paramsEmptySite : List (String × PVal) :=
  [("siteIds", PVal.str ""), ("limit", PVal.int 1000)]

/-- First page of a two-page chain: items `[10]`, next cursor `"c1"`. -/
def pW1 : Envelope Nat := ⟨DataVal.plain [10], some "c1"⟩

/-- Last page of a two-page chain: items `[20]`, no next cursor. -/
def pW2 : Envelope Nat := ⟨DataVal.plain [20], none⟩

/-- A two-page chained script. -/
def pagesW : List (Envelope Nat) := [pW1, pW2]

/-- A one-page script delivering the same items as `pagesW` in one page. -/
def scriptOnePage : List (HttpResponse Nat) := [HttpResponse.ok ⟨DataVal.plain [10, 20], none⟩]

/-- Ten sites; the window `[5, 40)` selects the last five, and the site at
window position 2 has an empty id, so its fetch raises `ValueError`. -/
def mInvalid : List (String × String) :=
  [("a0", "d0"), ("a1", "d1"), ("a2", "d2"), ("a3", "d3"), ("a4", "d4"),
   ("s5", "d5"), ("s6", "d6"), ("", "d7"), ("s8", "d8"), ("s9", "d9")]

/-- Ten sites with no empty id; the window selects the last five. -/
def mPlain : List (String × String) :=
  [("a0", "d0"), ("a1", "d1"), ("a2", "d2"), ("a3", "d3"), ("a4", "d4"),
   ("s5", "d5"), ("s6", "d6"), ("s7", "d7"), ("s8", "d8"), ("s9", "d9")]

/-- Forty-five sites, so the window `[5, 40)` is a strict middle slice. -/
def mWide : List (String × String) :=
  (List.range 45).map (fun n => (toString n, "d" ++ toString n))

/-- Environment in which every site answers with a single page of one item. -/
def rfOk : String → List (HttpResponse Nat) :=
  fun _ => [HttpResponse.ok ⟨DataVal.plain [7], none⟩]

/-- Environment in which site `"s7"` suffers a transport failure and every
other site answers with a single page of one item. -/
def rfFail7 : String → List (HttpResponse Nat) :=
  fun s => if s = "s7" then [HttpResponse.transportFailure]
    else [HttpResponse.ok ⟨DataVal.plain [7], none⟩]

/-! ## Association-list lemmas -/

theorem alistGet_set_same {β : Type} (d : List (String × β)) (k : String) (v : β) :
    alistGet (alistSet d k v) k = some v := by
  induction d with
  | nil => simp [alistGet, alistSet]
  | cons p rest ih =>
    obtain ⟨k', v'⟩ := p
    by_cases h : k' = k <;> simp [alistGet, alistSet, h, ih]

theorem alistGet_set_ne {β : Type} (d : List (String × β)) (k k' : String) (v : β)
    (h : k' ≠ k) : alistGet (alistSet d k v) k' = alistGet d k' := by
  induction d with
  | nil => simp [alistGet, alistSet, Ne.symm h]
  | cons p rest ih =>
    obtain ⟨k1, v1⟩ := p
    by_cases h1 : k1 = k
    · subst h1
      simp [alistGet, alistSet, Ne.symm h]
    · by_cases h2 : k1 = k' <;> simp [alistGet, alistSet, h1, h2, h, ih]

theorem getLastD_range_one : ∀ n : Nat, (List.range' 1 n).getLastD 0 = n := by
  intro n
  cases n with
  | zero => rfl
  | succ m =>
    rw [List.range'_1_concat, List.getLastD_concat]
    omega

/-! ## One-step characterizations of the pagination loop -/

theorem fetchLoop_last {α : Type} (isSites hasCb : Bool) (p : Envelope α)
    (c : List α) (rest : List (HttpResponse α))
    (hext : extractChunk isSites p.data = some c) (hcur : p.nextCursor = none)
    (cursor : Option String) (st : LoopState α) :
    fetchLoop isSites hasCb cursor (HttpResponse.ok p :: rest) st
      = ⟨FetchOutcome.ok (st.allData ++ c),
         st.requests ++ [currentParamsFor st.params cursor],
         (if hasCb then st.callbackArgs ++ [st.pageCount + 1] else st.callbackArgs),
         st.params⟩ := by
  simp [fetchLoop, hext, hcur]

theorem fetchLoop_step {α : Type} (isSites hasCb : Bool) (p : Envelope α)
    (c : List α) (cur : String) (rest : List (HttpResponse α))
    (hext : extractChunk isSites p.data = some c)
    (hcur : p.nextCursor = some cur) (hne : cur ≠ "")
    (cursor : Option String) (st : LoopState α) :
    fetchLoop isSites hasCb cursor (HttpResponse.ok p :: rest) st
      = fetchLoop isSites hasCb (some cur) rest
          ⟨(if cursorFalsy cursor then alistSet st.params "cursor" (PVal.str cur)
              else st.params),
           st.allData ++ c, st.pageCount + 1,
           st.requests ++ [currentParamsFor st.params cursor],
           (if hasCb then st.callbackArgs ++ [st.pageCount + 1] else st.callbackArgs)⟩ := by
  conv_lhs => rw [fetchLoop.eq_def]
  simp [hext, hcur, hne]

theorem fetchLoop_fail {α : Type} (isSites hasCb : Bool)
    (fail : HttpResponse α) (rest : List (HttpResponse α))
    (hfail : fail = HttpResponse.transportFailure ∨ fail = HttpResponse.statusFailure)
    (cursor : Option String) (st : LoopState α) :
    fetchLoop isSites hasCb cursor (fail :: rest) st
      = ⟨FetchOutcome.error PyErr.transportError,
         st.requests ++ [currentParamsFor st.params cursor],
         st.callbackArgs, st.params⟩ := by
  cases hfail with
  | inl h => subst h; simp [fetchLoop]
  | inr h => subst h; simp [fetchLoop]

theorem requestCursor_current_truthy (P : List (String × PVal)) (cur : String)
    (hne : cur ≠ "") :
    requestCursor (currentParamsFor P (some cur)) = some (PVal.str cur) := by
  simp [requestCursor, currentParamsFor, hne, alistGet_set_same]

/-- Running the loop on a complete well-formed pagination chain: the outcome
is the accumulator extended with the concatenation of all chunks, one request
is issued per page with the pages' cursors carried in order after the first
request, and the callback sees the consecutive page counts. -/
theorem fetchLoop_chained {α : Type} (isSites hasCb : Bool) :
    ∀ (pages : List (Envelope α)) (chunks : List (List α)) (cursors : List String),
      ChainedScript isSites pages chunks cursors →
      ∀ (cursor : Option String) (st : LoopState α),
        (fetchLoop isSites hasCb cursor (pages.map HttpResponse.ok) st).outcome
            = FetchOutcome.ok (st.allData ++ chunks.flatten)
        ∧ (fetchLoop isSites hasCb cursor (pages.map HttpResponse.ok) st).requests.map
              requestCursor
            = st.requests.map requestCursor
              ++ requestCursor (currentParamsFor st.params cursor)
                :: cursors.map (fun c => some (PVal.str c))
        ∧ (fetchLoop isSites hasCb cursor (pages.map HttpResponse.ok) st).callbackArgs
            = st.callbackArgs
              ++ (if hasCb then List.range' (st.pageCount + 1) pages.length else [])
        ∧ (fetchLoop isSites hasCb cursor (pages.map HttpResponse.ok) st).requests.length
            = st.requests.length + pages.length := by
  intro pages
  induction pages with
  | nil =>
      intro chunks cursors h
      cases chunks <;> cases cursors <;> exact h.elim
  | cons p ps ih =>
      intro chunks cursors h cursor st
      cases ps with
      | nil =>
          cases chunks with
          | nil => cases cursors <;> exact h.elim
          | cons c cs =>
            cases cs with
            | cons c2 cs2 => cases cursors <;> exact h.elim
            | nil =>
              cases cursors with
              | cons cur curs => exact h.elim
              | nil =>
                obtain ⟨hext, hcur⟩ := h
                rw [List.map_cons, List.map_nil,
                  fetchLoop_last isSites hasCb p c [] hext hcur cursor st]
                refine ⟨by simp, by simp, ?_, by simp⟩
                cases hasCb <;> simp
      | cons q ps' =>
          cases chunks with
          | nil => cases cursors <;> exact h.elim
          | cons c cs =>
            cases cursors with
            | nil => exact h.elim
            | cons cur curs =>
              obtain ⟨hext, hcur, hne, hrest⟩ := h
              rw [List.map_cons,
                fetchLoop_step isSites hasCb p c cur ((q :: ps').map HttpResponse.ok)
                  hext hcur hne cursor st]
              obtain ⟨o1, o2, o3, o4⟩ :=
                ih cs curs hrest (some cur)
                  ⟨(if cursorFalsy cursor
                      then alistSet st.params "cursor" (PVal.str cur) else st.params),
                   st.allData ++ c, st.pageCount + 1,
                   st.requests ++ [currentParamsFor st.params cursor],
                   (if hasCb then st.callbackArgs ++ [st.pageCount + 1]
                      else st.callbackArgs)⟩
              refine ⟨?_, ?_, ?_, ?_⟩
              · rw [o1]; simp
              · rw [o2, requestCursor_current_truthy _ cur hne]; simp
              · rw [o3]
                cases hasCb <;> simp [List.range'_succ]
              · rw [o4]; simp; omega

/-- Running the loop on a well-formed prefix followed by a failing exchange:
the loop aborts at the failing page with a `TransportError` and no items,
having issued one request per page consumed plus the failing one. -/
theorem fetchLoop_failing {α : Type} (isSites hasCb : Bool) :
    ∀ (pre : List (Envelope α)), ChainedInit isSites pre →
      ∀ (fail : HttpResponse α),
        (fail = HttpResponse.transportFailure ∨ fail = HttpResponse.statusFailure) →
        ∀ (rest : List (HttpResponse α)) (cursor : Option String) (st : LoopState α),
          (fetchLoop isSites hasCb cursor
              (pre.map HttpResponse.ok ++ fail :: rest) st).outcome
              = FetchOutcome.error PyErr.transportError
          ∧ (fetchLoop isSites hasCb cursor
              (pre.map HttpResponse.ok ++ fail :: rest) st).requests.length
              = st.requests.length + pre.length + 1 := by
  intro pre
  induction pre with
  | nil =>
      intro _ fail hfail rest cursor st
      rw [List.map_nil, List.nil_append, fetchLoop_fail isSites hasCb fail rest hfail]
      simp
  | cons p ps ih =>
      intro h fail hfail rest cursor st
      obtain ⟨⟨c, hext⟩, ⟨cur, hcur, hne⟩, hps⟩ := h
      rw [List.map_cons, List.cons_append,
        fetchLoop_step isSites hasCb p c cur (ps.map HttpResponse.ok ++ fail :: rest)
          hext hcur hne cursor st]
      obtain ⟨o1, o2⟩ :=
        ih hps fail hfail rest (some cur)
          ⟨(if cursorFalsy cursor
              then alistSet st.params "cursor" (PVal.str cur) else st.params),
           st.allData ++ c, st.pageCount + 1,
           st.requests ++ [currentParamsFor st.params cursor],
           (if hasCb then st.callbackArgs ++ [st.pageCount + 1]
              else st.callbackArgs)⟩
      refine ⟨o1, ?_⟩
      rw [o2]; simp; omega

/-- Frame property of the loop: whatever the script does, the only key of
the caller's parameter dict the loop can write is `"cursor"` (through the
first-iteration alias). -/
theorem fetchLoop_frame {α : Type} (isSites hasCb : Bool) :
    ∀ (responses : List (HttpResponse α)) (cursor : Option String)
      (st : LoopState α) (k : String), k ≠ "cursor" →
      alistGet (fetchLoop isSites hasCb cursor responses st).finalParams k
        = alistGet st.params k := by
  intro responses
  induction responses with
  | nil => intro cursor st k _; rfl
  | cons resp rest ih =>
      intro cursor st k hk
      cases resp with
      | transportFailure => rfl
      | statusFailure => rfl
      | ok env =>
          rw [fetchLoop.eq_def]
          simp only []
          cases hext : extractChunk isSites env.data with
          | none => simp [hext]
          | some chunk =>
            cases hcur : env.nextCursor with
            | none => simp [hext, hcur]
            | some c =>
              by_cases hc : c = ""
              · simp [hext, hcur, hc]
              · simp only [hext, hcur, hc, if_false]
                rw [ih]
                · by_cases hf : cursorFalsy cursor
                  · simp only [hf, if_true]
                    exact alistGet_set_ne st.params "cursor" k (PVal.str c) hk
                  · simp [hf]
                · exact hk

theorem alistSet_set_same {β : Type} (d : List (String × β)) (k : String) (v w : β) :
    alistSet (alistSet d k v) k w = alistSet d k w := by
  induction d with
  | nil => simp [alistSet]
  | cons p rest ih =>
    obtain ⟨k', v'⟩ := p
    by_cases h : k' = k <;> simp [alistSet, h, ih]

/-! ## One-step characterizations of the orchestration loop -/

theorem runLoop_step_interrupt {α : Type} (rf : String → List (HttpResponse α))
    (sid dom : String) (rest : List (String × String)) (i : Nat)
    (results : List α) (statuses : List (String × SiteStatus)) (fetched : List String) :
    runLoop rf (some i) ((sid, dom) :: rest) i results statuses fetched
      = ⟨RunResult.returned results, statuses, fetched, true⟩ := by
  simp [runLoop]

theorem runLoop_step_ok {α : Type} (rf : String → List (HttpResponse α))
    (ib : Option Nat) (sid dom : String) (rest : List (String × String)) (i : Nat)
    (results : List α) (statuses : List (String × SiteStatus)) (fetched : List String)
    (items : List α) (hib : ib ≠ some i)
    (ho : (siteFetch rf sid).outcome = FetchOutcome.ok items) :
    runLoop rf ib ((sid, dom) :: rest) i results statuses fetched
      = runLoop rf ib rest (i + 1) (results ++ items)
          (alistSet statuses sid
            ⟨dom, items.length, sitePages rf sid, SiteState.completed⟩)
          (fetched ++ [sid]) := by
  conv_lhs => rw [runLoop.eq_def]
  simp [hib, ho, sitePages, alistSet_set_same]

theorem runLoop_step_invalid {α : Type} (rf : String → List (HttpResponse α))
    (ib : Option Nat) (sid dom : String) (rest : List (String × String)) (i : Nat)
    (results : List α) (statuses : List (String × SiteStatus)) (fetched : List String)
    (hib : ib ≠ some i)
    (ho : (siteFetch rf sid).outcome = FetchOutcome.error PyErr.valueError) :
    runLoop rf ib ((sid, dom) :: rest) i results statuses fetched
      = runLoop rf ib rest (i + 1) results
          (alistSet statuses sid ⟨dom, 0, sitePages rf sid, SiteState.failed⟩)
          (fetched ++ [sid]) := by
  conv_lhs => rw [runLoop.eq_def]
  simp [hib, ho, sitePages, alistSet_set_same]

theorem runLoop_step_raise {α : Type} (rf : String → List (HttpResponse α))
    (ib : Option Nat) (sid dom : String) (rest : List (String × String)) (i : Nat)
    (results : List α) (statuses : List (String × SiteStatus)) (fetched : List String)
    (e : PyErr) (hib : ib ≠ some i)
    (ho : (siteFetch rf sid).outcome = FetchOutcome.error e) (he : e ≠ PyErr.valueError) :
    runLoop rf ib ((sid, dom) :: rest) i results statuses fetched
      = ⟨RunResult.raised e,
         alistSet statuses sid ⟨dom, 0, sitePages rf sid, SiteState.running⟩,
         fetched ++ [sid], false⟩ := by
  conv_lhs => rw [runLoop.eq_def]
  cases e with
  | valueError => exact absurd rfl he
  | keyError => simp [hib, ho, sitePages, alistSet_set_same]
  | transportError => simp [hib, ho, sitePages, alistSet_set_same]
  | typeError => simp [hib, ho, sitePages, alistSet_set_same]

/-! ## Top-level unfoldings of `fetch_paginated_api_data` -/

theorem fetch_unfold_valid {α : Type} (params : List (String × PVal)) (ep : String)
    (cb : Bool) (responses : List (HttpResponse α)) (v : PVal)
    (hv : alistGet params "siteIds" = some v) (hne : v ≠ PVal.str "") :
    fetch_paginated_api_data params ep cb responses
      = fetchLoop (decide (ep = "sites")) cb none responses ⟨params, [], 0, [], []⟩ := by
  rw [fetch_paginated_api_data.eq_def, hv]
  simp [hne]

theorem fetch_empty_site {α : Type} (params : List (String × PVal)) (ep : String)
    (cb : Bool) (responses : List (HttpResponse α))
    (hv : alistGet params "siteIds" = some (PVal.str "")) :
    fetch_paginated_api_data params ep cb responses
      = ⟨FetchOutcome.error PyErr.valueError, [], [], params⟩ := by
  rw [fetch_paginated_api_data.eq_def, hv]
  simp

theorem fetch_missing_site {α : Type} (params : List (String × PVal)) (ep : String)
    (cb : Bool) (responses : List (HttpResponse α))
    (hv : alistGet params "siteIds" = none) :
    fetch_paginated_api_data params ep cb responses
      = ⟨FetchOutcome.error PyErr.keyError, [], [], params⟩ := by
  rw [fetch_paginated_api_data.eq_def, hv]

theorem fetchLoop_no_valueError {α : Type} (isSites cb : Bool) :
    ∀ (responses : List (HttpResponse α)) (cursor : Option String) (st : LoopState α),
      (fetchLoop isSites cb cursor responses st).outcome
        ≠ FetchOutcome.error PyErr.valueError := by
  intro responses
  induction responses with
  | nil => intro cursor st h; simp [fetchLoop] at h
  | cons resp rest ih =>
      intro cursor st h
      cases resp with
      | transportFailure => simp [fetchLoop] at h
      | statusFailure => simp [fetchLoop] at h
      | ok env =>
          cases hext : extractChunk isSites env.data with
          | none => simp [fetchLoop, hext] at h
          | some chunk =>
            cases hcur : env.nextCursor with
            | none => simp [fetchLoop, hext, hcur] at h
            | some c =>
              by_cases hc : c = ""
              · simp [fetchLoop, hext, hcur, hc] at h
              · rw [fetchLoop_step isSites cb env chunk c rest hext hcur hc cursor st]
                  at h
                exact ih _ _ h

/-- A fetch that raises the empty-site-id `ValueError` did so before the
loop: no request was issued, the callback never ran, and the caller's dict
is untouched. -/
theorem fetch_valueError_trace {α : Type} (params : List (String × PVal)) (ep : String)
    (cb : Bool) (responses : List (HttpResponse α))
    (h : (fetch_paginated_api_data params ep cb responses).outcome
          = FetchOutcome.error PyErr.valueError) :
    fetch_paginated_api_data params ep cb responses
      = ⟨FetchOutcome.error PyErr.valueError, [], [], params⟩ := by
  cases hv : alistGet params "siteIds" with
  | none =>
      rw [fetch_missing_site params ep cb responses hv] at h
      simp at h
  | some v =>
      by_cases hveq : v = PVal.str ""
      · subst hveq
        exact fetch_empty_site params ep cb responses hv
      · rw [fetch_unfold_valid params ep cb responses v hv hveq] at h
        exact absurd h (fetchLoop_no_valueError _ _ _ _ _)

/-! ## Global behaviour of the orchestration loop -/

theorem runLoop_all_handled {α : Type} (rf : String → List (HttpResponse α)) :
    ∀ (sites : List (String × String)) (i : Nat) (results : List α)
      (statuses : List (String × SiteStatus)) (fetched : List String),
      (∀ p ∈ sites, siteHandled rf p.1 = true) →
      (runLoop rf none sites i results statuses fetched).result
          = RunResult.returned
              (results ++ (sites.map (fun p => siteItems rf p.1)).flatten)
      ∧ (runLoop rf none sites i results statuses fetched).fetchedSites
          = fetched ++ sites.map Prod.fst
      ∧ (runLoop rf none sites i results statuses fetched).interrupted = false := by
  intro sites
  induction sites with
  | nil =>
      intro i results statuses fetched _
      exact ⟨by simp [runLoop], by simp [runLoop], rfl⟩
  | cons p rest ih =>
      intro i results statuses fetched hall
      obtain ⟨sid, dom⟩ := p
      have hh := hall (sid, dom) (by simp)
      have hrest : ∀ q ∈ rest, siteHandled rf q.1 = true :=
        fun q hq => hall q (by simp [hq])
      cases ho : (siteFetch rf sid).outcome with
      | ok items =>
          rw [runLoop_step_ok rf none sid dom rest i results statuses fetched items
            (by simp) ho]
          obtain ⟨r1, r2, r3⟩ := ih (i + 1) (results ++ items)
            (alistSet statuses sid
              ⟨dom, items.length, sitePages rf sid, SiteState.completed⟩)
            (fetched ++ [sid]) hrest
          refine ⟨?_, ?_, r3⟩
          · rw [r1]; simp [siteItems, ho]
          · rw [r2]; simp
      | error e =>
          cases e with
          | valueError =>
              rw [runLoop_step_invalid rf none sid dom rest i results statuses fetched
                (by simp) ho]
              obtain ⟨r1, r2, r3⟩ := ih (i + 1) results
                (alistSet statuses sid ⟨dom, 0, sitePages rf sid, SiteState.failed⟩)
                (fetched ++ [sid]) hrest
              refine ⟨?_, ?_, r3⟩
              · rw [r1]; simp [siteItems, ho]
              · rw [r2]; simp
          | keyError => simp [siteHandled, ho] at hh
          | transportError => simp [siteHandled, ho] at hh
          | typeError => simp [siteHandled, ho] at hh

theorem runLoop_statuses_other {α : Type} (rf : String → List (HttpResponse α))
    (ib : Option Nat) :
    ∀ (sites : List (String × String)) (i : Nat) (results : List α)
      (statuses : List (String × SiteStatus)) (fetched : List String) (s : String),
      s ∉ sites.map Prod.fst →
      alistGet (runLoop rf ib sites i results statuses fetched).statuses s
        = alistGet statuses s := by
  intro sites
  induction sites with
  | nil => intro i results statuses fetched s _; rfl
  | cons p rest ih =>
      intro i results statuses fetched s hs
      obtain ⟨sid, dom⟩ := p
      simp only [List.map_cons, List.mem_cons, not_or] at hs
      obtain ⟨hne, hrest⟩ := hs
      by_cases hib : ib = some i
      · rw [hib, runLoop_step_interrupt]
      · cases ho : (siteFetch rf sid).outcome with
        | ok items =>
            rw [runLoop_step_ok rf ib sid dom rest i results statuses fetched items hib ho,
              ih _ _ _ _ _ hrest]
            exact alistGet_set_ne statuses sid s _ hne
        | error e =>
            cases e with
            | valueError =>
                rw [runLoop_step_invalid rf ib sid dom rest i results statuses fetched
                  hib ho, ih _ _ _ _ _ hrest]
                exact alistGet_set_ne statuses sid s _ hne
            | keyError =>
                rw [runLoop_step_raise rf ib sid dom rest i results statuses fetched _
                  hib ho (by simp)]
                exact alistGet_set_ne statuses sid s _ hne
            | transportError =>
                rw [runLoop_step_raise rf ib sid dom rest i results statuses fetched _
                  hib ho (by simp)]
                exact alistGet_set_ne statuses sid s _ hne
            | typeError =>
                rw [runLoop_step_raise rf ib sid dom rest i results statuses fetched _
                  hib ho (by simp)]
                exact alistGet_set_ne statuses sid s _ hne

theorem runLoop_status_mem {α : Type} (rf : String → List (HttpResponse α)) :
    ∀ (sites : List (String × String)) (i : Nat) (results : List α)
      (statuses : List (String × SiteStatus)) (fetched : List String) (s d : String),
      (∀ p ∈ sites, siteHandled rf p.1 = true) →
      (sites.map Prod.fst).Nodup →
      (s, d) ∈ sites →
      alistGet (runLoop rf none sites i results statuses fetched).statuses s
        = some (siteRecord rf s d) := by
  intro sites
  induction sites with
  | nil => intro i results statuses fetched s d _ _ hmem; cases hmem
  | cons p rest ih =>
      intro i results statuses fetched s d hall hnodup hmem
      obtain ⟨sid, dom⟩ := p
      have hh := hall (sid, dom) (by simp)
      have hrest : ∀ q ∈ rest, siteHandled rf q.1 = true :=
        fun q hq => hall q (by simp [hq])
      simp only [List.map_cons, List.nodup_cons] at hnodup
      obtain ⟨hsid_notin, hnodup'⟩ := hnodup
      rcases List.mem_cons.mp hmem with heq | hmem'
      · obtain ⟨hs, hd⟩ := Prod.mk.injEq .. ▸ heq
        subst hs; subst hd
        cases ho : (siteFetch rf s).outcome with
        | ok items =>
            rw [runLoop_step_ok rf none s d rest i results statuses fetched items
              (by simp) ho,
              runLoop_statuses_other rf none rest _ _ _ _ _ hsid_notin,
              alistGet_set_same]
            simp [siteRecord, ho]
        | error e =>
            cases e with
            | valueError =>
                rw [runLoop_step_invalid rf none s d rest i results statuses fetched
                  (by simp) ho,
                  runLoop_statuses_other rf none rest _ _ _ _ _ hsid_notin,
                  alistGet_set_same]
                simp [siteRecord, ho]
            | keyError => simp [siteHandled, ho] at hh
            | transportError => simp [siteHandled, ho] at hh
            | typeError => simp [siteHandled, ho] at hh
      · cases ho : (siteFetch rf sid).outcome with
        | ok items =>
            rw [runLoop_step_ok rf none sid dom rest i results statuses fetched items
              (by simp) ho]
            exact ih _ _ _ _ s d hrest hnodup' hmem'
        | error e =>
            cases e with
            | valueError =>
                rw [runLoop_step_invalid rf none sid dom rest i results statuses
                  fetched (by simp) ho]
                exact ih _ _ _ _ s d hrest hnodup' hmem'
            | keyError => simp [siteHandled, ho] at hh
            | transportError => simp [siteHandled, ho] at hh
            | typeError => simp [siteHandled, ho] at hh

theorem runLoop_raise_at {α : Type} (rf : String → List (HttpResponse α)) :
    ∀ (pre : List (String × String)) (sB dB : String) (post : List (String × String))
      (i : Nat) (results : List α) (statuses : List (String × SiteStatus))
      (fetched : List String) (e : PyErr),
      (∀ p ∈ pre, siteHandled rf p.1 = true) →
      (siteFetch rf sB).outcome = FetchOutcome.error e → e ≠ PyErr.valueError →
      (runLoop rf none (pre ++ (sB, dB) :: post) i results statuses fetched).result
          = RunResult.raised e
      ∧ (runLoop rf none (pre ++ (sB, dB) :: post) i results statuses
          fetched).fetchedSites
          = fetched ++ pre.map Prod.fst ++ [sB] := by
  intro pre
  induction pre with
  | nil =>
      intro sB dB post i results statuses fetched e _ ho he
      rw [List.nil_append,
        runLoop_step_raise rf none sB dB post i results statuses fetched e
          (by simp) ho he]
      exact ⟨rfl, by simp⟩
  | cons p rest ih =>
      intro sB dB post i results statuses fetched e hall ho he
      obtain ⟨sid, dom⟩ := p
      have hh := hall (sid, dom) (by simp)
      have hrest : ∀ q ∈ rest, siteHandled rf q.1 = true :=
        fun q hq => hall q (by simp [hq])
      cases hoh : (siteFetch rf sid).outcome with
      | ok items =>
          rw [List.cons_append,
            runLoop_step_ok rf none sid dom (rest ++ (sB, dB) :: post) i results
              statuses fetched items (by simp) hoh]
          obtain ⟨r1, r2⟩ := ih sB dB post (i + 1) (results ++ items)
            (alistSet statuses sid
              ⟨dom, items.length, sitePages rf sid, SiteState.completed⟩)
            (fetched ++ [sid]) e hrest ho he
          exact ⟨r1, by rw [r2]; simp⟩
      | error e' =>
          cases e' with
          | valueError =>
              rw [List.cons_append,
                runLoop_step_invalid rf none sid dom (rest ++ (sB, dB) :: post) i
                  results statuses fetched (by simp) hoh]
              obtain ⟨r1, r2⟩ := ih sB dB post (i + 1) results
                (alistSet statuses sid ⟨dom, 0, sitePages rf sid, SiteState.failed⟩)
                (fetched ++ [sid]) e hrest ho he
              exact ⟨r1, by rw [r2]; simp⟩
          | keyError => simp [siteHandled, hoh] at hh
          | transportError => simp [siteHandled, hoh] at hh
          | typeError => simp [siteHandled, hoh] at hh

theorem runLoop_interrupted {α : Type} (rf : String → List (HttpResponse α)) :
    ∀ (k : Nat) (sites : List (String × String)) (i : Nat) (results : List α)
      (statuses : List (String × SiteStatus)) (fetched : List String),
      k < sites.length →
      (∀ p ∈ sites.take k, siteCompleted rf p.1 = true) →
      (runLoop rf (some (i + k)) sites i results statuses fetched).result
          = RunResult.returned
              (results ++ ((sites.take k).map (fun p => siteItems rf p.1)).flatten)
      ∧ (runLoop rf (some (i + k)) sites i results statuses fetched).fetchedSites
          = fetched ++ (sites.take k).map Prod.fst
      ∧ (runLoop rf (some (i + k)) sites i results statuses fetched).interrupted
          = true := by
  intro k
  induction k with
  | zero =>
      intro sites i results statuses fetched hlen _
      cases sites with
      | nil => simp at hlen
      | cons p rest =>
          obtain ⟨sid, dom⟩ := p
          rw [Nat.add_zero, runLoop_step_interrupt]
          exact ⟨by simp, by simp, rfl⟩
  | succ m ihm =>
      intro sites i results statuses fetched hlen htake
      cases sites with
      | nil => simp at hlen
      | cons p rest =>
          obtain ⟨sid, dom⟩ := p
          have hh : siteCompleted rf sid = true :=
            htake (sid, dom) (by simp [List.take_succ_cons])
          have htake' : ∀ q ∈ rest.take m, siteCompleted rf q.1 = true :=
            fun q hq => htake q (by simp [List.take_succ_cons, hq])
          cases ho : (siteFetch rf sid).outcome with
          | error e => simp [siteCompleted, ho] at hh
          | ok items =>
              have harith : i + (m + 1) = (i + 1) + m := by omega
              rw [harith,
                runLoop_step_ok rf (some ((i + 1) + m)) sid dom rest i results
                  statuses fetched items (by simp; omega) ho]
              obtain ⟨r1, r2, r3⟩ := ihm rest (i + 1) (results ++ items)
                (alistSet statuses sid
                  ⟨dom, items.length, sitePages rf sid, SiteState.completed⟩)
                (fetched ++ [sid]) (by simpa using hlen) htake'
              refine ⟨?_, ?_, r3⟩
              · rw [r1]; simp [List.take_succ_cons, siteItems, ho]
              · rw [r2]; simp [List.take_succ_cons]

theorem runLoop_fetched_prefix {α : Type} (rf : String → List (HttpResponse α))
    (ib : Option Nat) :
    ∀ (sites : List (String × String)) (i : Nat) (results : List α)
      (statuses : List (String × SiteStatus)) (fetched : List String),
      ∃ k, (runLoop rf ib sites i results statuses fetched).fetchedSites
        = fetched ++ (sites.map Prod.fst).take k := by
  intro sites
  induction sites with
  | nil => intro i results statuses fetched; exact ⟨0, by simp [runLoop]⟩
  | cons p rest ih =>
      intro i results statuses fetched
      obtain ⟨sid, dom⟩ := p
      by_cases hib : ib = some i
      · exact ⟨0, by rw [hib, runLoop_step_interrupt]; simp⟩
      · cases ho : (siteFetch rf sid).outcome with
        | ok items =>
            obtain ⟨k, hk⟩ := ih (i + 1) (results ++ items)
              (alistSet statuses sid
                ⟨dom, items.length, sitePages rf sid, SiteState.completed⟩)
              (fetched ++ [sid])
            refine ⟨k + 1, ?_⟩
            rw [runLoop_step_ok rf ib sid dom rest i results statuses fetched items
              hib ho, hk]
            simp [List.take_succ_cons]
        | error e =>
            cases e with
            | valueError =>
                obtain ⟨k, hk⟩ := ih (i + 1) results
                  (alistSet statuses sid ⟨dom, 0, sitePages rf sid, SiteState.failed⟩)
                  (fetched ++ [sid])
                refine ⟨k + 1, ?_⟩
                rw [runLoop_step_invalid rf ib sid dom rest i results statuses fetched
                  hib ho, hk]
                simp [List.take_succ_cons]
            | keyError =>
                refine ⟨1, ?_⟩
                rw [runLoop_step_raise rf ib sid dom rest i results statuses fetched _
                  hib ho (by simp)]
                simp [List.take_succ_cons]
            | transportError =>
                refine ⟨1, ?_⟩
                rw [runLoop_step_raise rf ib sid dom rest i results statuses fetched _
                  hib ho (by simp)]
                simp [List.take_succ_cons]
            | typeError =>
                refine ⟨1, ?_⟩
                rw [runLoop_step_raise rf ib sid dom rest i results statuses fetched _
                  hib ho (by simp)]
                simp [List.take_succ_cons]

/-! ## Claim theorems -/

/-- C1: for every parameter mapping that carries a non-empty site identifier
and every response sequence of N pages in which each page before the last
supplies a (truthy) next-page cursor and page N supplies none,
`fetch_paginated_api_data` issues exactly N HTTP requests, each request
after the first carrying the previous page's cursor, and the returned value
is the concatenation of all pages' items in page order. -/
theorem c1_fetch_n_requests_and_concat {α : Type} (params : List (String × PVal))
    (endpoint : String) (hasCb : Bool) (pages : List (Envelope α))
    (chunks : List (List α)) (cursors : List String) (v : PVal)
    (hv : alistGet params "siteIds" = some v) (hne : v ≠ PVal.str "")
    (hchain : ChainedScript (decide (endpoint = "sites")) pages chunks cursors) :
    (fetch_paginated_api_data params endpoint hasCb
        (pages.map HttpResponse.ok)).outcome = FetchOutcome.ok chunks.flatten
    ∧ (fetch_paginated_api_data params endpoint hasCb
        (pages.map HttpResponse.ok)).requests.length = pages.length
    ∧ (fetch_paginated_api_data params endpoint hasCb
        (pages.map HttpResponse.ok)).requests.map requestCursor
        = alistGet params "cursor" :: cursors.map (fun c => some (PVal.str c)) := by
  obtain ⟨o1, o2, o3, o4⟩ :=
    fetchLoop_chained (decide (endpoint = "sites")) hasCb pages chunks cursors hchain
      none ⟨params, [], 0, [], []⟩
  rw [fetch_unfold_valid params endpoint hasCb (pages.map HttpResponse.ok) v hv hne]
  refine ⟨?_, ?_, ?_⟩
  · rw [o1]; simp
  · rw [o4]; simp
  · rw [o2]; simp [requestCursor, currentParamsFor]

/-- Witness for C1 at a concrete two-page chain. -/
theorem c1_witness :
    (fetch_paginated_api_data paramsW "cloud-detection/alerts" true
        (pagesW.map HttpResponse.ok)).outcome = FetchOutcome.ok [10, 20]
    ∧ (fetch_paginated_api_data paramsW "cloud-detection/alerts" true
        (pagesW.map HttpResponse.ok)).requests.length = 2
    ∧ (fetch_paginated_api_data paramsW "cloud-detection/alerts" true
        (pagesW.map HttpResponse.ok)).requests.map requestCursor
        = [none, some (PVal.str "c1")] := by
  have h := c1_fetch_n_requests_and_concat paramsW "cloud-detection/alerts" true
    pagesW [[10], [20]] ["c1"] (PVal.str "s1") rfl (by decide)
    ⟨rfl, rfl, by decide, rfl, rfl⟩
  simpa using h

/-- C3, counterexample: a parameter mapping whose site identifier is missing
fails before any request, but with a `KeyError`, not with the
`InvalidParameter` (`ValueError`) the claim states. -/
theorem c3_counterexample :
    (fetch_paginated_api_data paramsNoSite "cloud-detection/alerts" true
        (pagesW.map HttpResponse.ok)).outcome = FetchOutcome.error PyErr.keyError
    ∧ (fetch_paginated_api_data paramsNoSite "cloud-detection/alerts" true
        (pagesW.map HttpResponse.ok)).outcome ≠ FetchOutcome.error PyErr.valueError
    ∧ (fetch_paginated_api_data paramsNoSite "cloud-detection/alerts" true
        (pagesW.map HttpResponse.ok)).requests = [] := by
  decide

/-- C3, amended: an empty site identifier fails with `InvalidParameter`
(`ValueError`) before any request is issued; a missing site identifier also
fails before any request, but with a key-lookup error (`KeyError`). -/
theorem c3_invalid_parameter_before_request {α : Type} (params : List (String × PVal))
    (ep : String) (cb : Bool) (responses : List (HttpResponse α)) :
    (alistGet params "siteIds" = some (PVal.str "") →
      (fetch_paginated_api_data params ep cb responses).outcome
          = FetchOutcome.error PyErr.valueError
      ∧ (fetch_paginated_api_data params ep cb responses).requests = [])
    ∧ (alistGet params "siteIds" = none →
      (fetch_paginated_api_data params ep cb responses).outcome
          = FetchOutcome.error PyErr.keyError
      ∧ (fetch_paginated_api_data params ep cb responses).requests = []) := by
  constructor
  · intro hv
    rw [fetch_empty_site params ep cb responses hv]
    exact ⟨rfl, rfl⟩
  · intro hv
    rw [fetch_missing_site params ep cb responses hv]
    exact ⟨rfl, rfl⟩

/-- Witness for the amended C3 at concrete empty-id and missing-id dicts. -/
theorem c3_witness :
    ((fetch_paginated_api_data paramsEmptySite "cloud-detection/alerts" true
        (pagesW.map HttpResponse.ok)).outcome = FetchOutcome.error PyErr.valueError
      ∧ (fetch_paginated_api_data paramsEmptySite "cloud-detection/alerts" true
        (pagesW.map HttpResponse.ok)).requests = [])
    ∧ ((fetch_paginated_api_data paramsNoSite "cloud-detection/alerts" true
        (pagesW.map HttpResponse.ok)).outcome = FetchOutcome.error PyErr.keyError
      ∧ (fetch_paginated_api_data paramsNoSite "cloud-detection/alerts" true
        (pagesW.map HttpResponse.ok)).requests = []) := by
  exact ⟨(c3_invalid_parameter_before_request paramsEmptySite "cloud-detection/alerts"
      true (pagesW.map HttpResponse.ok)).1 rfl,
    (c3_invalid_parameter_before_request paramsNoSite "cloud-detection/alerts"
      true (pagesW.map HttpResponse.ok)).2 rfl⟩

/-- C5: if, after a well-formed run of pages, a page's HTTP request fails or
returns a non-success status, the fetch aborts at that page with
`TransportError`: the outcome is the propagated error, one request was
issued per consumed page plus the failing one, and no item list is
returned. -/
theorem c5_transport_error_aborts {α : Type} (params : List (String × PVal))
    (ep : String) (cb : Bool) (v : PVal) (pre : List (Envelope α))
    (fail : HttpResponse α) (rest : List (HttpResponse α))
    (hv : alistGet params "siteIds" = some v) (hne : v ≠ PVal.str "")
    (hpre : ChainedInit (decide (ep = "sites")) pre)
    (hfail : fail = HttpResponse.transportFailure ∨ fail = HttpResponse.statusFailure) :
    (fetch_paginated_api_data params ep cb
        (pre.map HttpResponse.ok ++ fail :: rest)).outcome
        = FetchOutcome.error PyErr.transportError
    ∧ (fetch_paginated_api_data params ep cb
        (pre.map HttpResponse.ok ++ fail :: rest)).requests.length = pre.length + 1
    ∧ ∀ items : List α,
        (fetch_paginated_api_data params ep cb
          (pre.map HttpResponse.ok ++ fail :: rest)).outcome ≠ FetchOutcome.ok items := by
  obtain ⟨o1, o2⟩ := fetchLoop_failing (decide (ep = "sites")) cb pre hpre fail hfail
    rest none ⟨params, [], 0, [], []⟩
  rw [fetch_unfold_valid params ep cb (pre.map HttpResponse.ok ++ fail :: rest) v hv hne]
  refine ⟨o1, ?_, ?_⟩
  · rw [o2]; simp
  · intro items h
    rw [o1] at h
    exact absurd h (by simp)

/-- Witness for C5: one good page, then a transport failure. -/
theorem c5_witness :
    (fetch_paginated_api_data paramsW "cloud-detection/alerts" true
        ([pW1].map HttpResponse.ok ++ HttpResponse.transportFailure :: [])).outcome
        = FetchOutcome.error PyErr.transportError
    ∧ (fetch_paginated_api_data paramsW "cloud-detection/alerts" true
        ([pW1].map HttpResponse.ok
          ++ HttpResponse.transportFailure :: [])).requests.length = 2 := by
  have h := c5_transport_error_aborts paramsW "cloud-detection/alerts" true
    (PVal.str "s1") [pW1] HttpResponse.transportFailure [] rfl (by decide)
    ⟨⟨[10], rfl⟩, ⟨"c1", rfl, by decide⟩, trivial⟩ (Or.inl rfl)
  exact ⟨h.1, h.2.1⟩

/-- C6, counterexample: the value `fetch_paginated_api_data` returns does not
comprise the page count — two calls that consume different numbers of pages
(observed as 1 versus 2 HTTP requests) return identical values. -/
theorem c6_counterexample :
    (fetch_paginated_api_data paramsW "cloud-detection/alerts" true
        scriptOnePage).outcome
      = (fetch_paginated_api_data paramsW "cloud-detection/alerts" true
          (pagesW.map HttpResponse.ok)).outcome
    ∧ (fetch_paginated_api_data paramsW "cloud-detection/alerts" true
        scriptOnePage).requests.length = 1
    ∧ (fetch_paginated_api_data paramsW "cloud-detection/alerts" true
        (pagesW.map HttpResponse.ok)).requests.length = 2 := by
  decide

/-- C6, amended: a successful fetch returns the full accumulated item
sequence only; the final page count is not part of the return value, but is
reported through the page callback, whose last invocation argument equals
the number of pages consumed. -/
theorem c6_items_and_pages_via_callback {α : Type} (params : List (String × PVal))
    (endpoint : String) (pages : List (Envelope α)) (chunks : List (List α))
    (cursors : List String) (v : PVal)
    (hv : alistGet params "siteIds" = some v) (hne : v ≠ PVal.str "")
    (hchain : ChainedScript (decide (endpoint = "sites")) pages chunks cursors) :
    (fetch_paginated_api_data params endpoint true
        (pages.map HttpResponse.ok)).outcome = FetchOutcome.ok chunks.flatten
    ∧ (fetch_paginated_api_data params endpoint true
        (pages.map HttpResponse.ok)).requests.length = pages.length
    ∧ (fetch_paginated_api_data params endpoint true
        (pages.map HttpResponse.ok)).callbackArgs.getLastD 0 = pages.length := by
  obtain ⟨o1, o2, o3, o4⟩ :=
    fetchLoop_chained (decide (endpoint = "sites")) true pages chunks cursors hchain
      none ⟨params, [], 0, [], []⟩
  rw [fetch_unfold_valid params endpoint true (pages.map HttpResponse.ok) v hv hne]
  refine ⟨?_, ?_, ?_⟩
  · rw [o1]; simp
  · rw [o4]; simp
  · rw [o3]
    simpa using getLastD_range_one pages.length

/-- Witness for the amended C6 at a concrete two-page chain. -/
theorem c6_witness :
    (fetch_paginated_api_data paramsW "cloud-detection/alerts" true
        (pagesW.map HttpResponse.ok)).outcome = FetchOutcome.ok [10, 20]
    ∧ (fetch_paginated_api_data paramsW "cloud-detection/alerts" true
        (pagesW.map HttpResponse.ok)).callbackArgs.getLastD 0 = 2 := by
  have h := c6_items_and_pages_via_callback paramsW "cloud-detection/alerts"
    pagesW [[10], [20]] ["c1"] (PVal.str "s1") rfl (by decide)
    ⟨rfl, rfl, by decide, rfl, rfl⟩
  exact ⟨by simpa using h.1, by simpa using h.2.2⟩

/-- C8: with the same envelope shape otherwise, the fetch reads a page's
items from `data.sites` when the endpoint is the literal `"sites"` path, and
from `data` directly for every other endpoint. -/
theorem c8_unwrap_rule {α : Type} (params : List (String × PVal)) (cb : Bool)
    (items : List α) (v : PVal)
    (hv : alistGet params "siteIds" = some v) (hne : v ≠ PVal.str "") :
    (fetch_paginated_api_data params "sites" cb
        [HttpResponse.ok ⟨DataVal.sitesObj items, none⟩]).outcome
        = FetchOutcome.ok items
    ∧ ∀ ep : String, ep ≠ "sites" →
        (fetch_paginated_api_data params ep cb
          [HttpResponse.ok ⟨DataVal.plain items, none⟩]).outcome
          = FetchOutcome.ok items := by
  constructor
  · rw [fetch_unfold_valid params "sites" cb _ v hv hne,
      show ([HttpResponse.ok ⟨DataVal.sitesObj items, none⟩] : List (HttpResponse α))
          = HttpResponse.ok ⟨DataVal.sitesObj items, none⟩ :: [] from rfl,
      fetchLoop_last (decide ("sites" = "sites")) cb ⟨DataVal.sitesObj items, none⟩
        items [] rfl rfl none ⟨params, [], 0, [], []⟩]
    simp
  · intro ep hep
    have hd : decide (ep = "sites") = false := decide_eq_false hep
    rw [fetch_unfold_valid params ep cb _ v hv hne, hd,
      show ([HttpResponse.ok ⟨DataVal.plain items, none⟩] : List (HttpResponse α))
          = HttpResponse.ok ⟨DataVal.plain items, none⟩ :: [] from rfl,
      fetchLoop_last false cb ⟨DataVal.plain items, none⟩ items [] rfl rfl none
        ⟨params, [], 0, [], []⟩]
    simp

/-- Witness for C8 at concrete inputs, on both unwrap paths. -/
theorem c8_witness :
    (fetch_paginated_api_data paramsW "sites" true
        [HttpResponse.ok ⟨DataVal.sitesObj [7, 8], none⟩]).outcome
        = FetchOutcome.ok [7, 8]
    ∧ (fetch_paginated_api_data paramsW "cloud-detection/alerts" true
        [HttpResponse.ok ⟨DataVal.plain [7, 8], none⟩]).outcome
        = FetchOutcome.ok [7, 8] := by
  have h := c8_unwrap_rule paramsW true ([7, 8] : List Nat) (PVal.str "s1") rfl
    (by decide)
  exact ⟨h.1, h.2 "cloud-detection/alerts" (by decide)⟩

/-- C9: the caller-supplied parameter mapping is unchanged when the fetch
ends, except possibly for the injected `"cursor"` field: every other key
still maps to its original value, on every script and endpoint. -/
theorem c9_params_frame {α : Type} (params : List (String × PVal)) (ep : String)
    (cb : Bool) (responses : List (HttpResponse α)) (k : String)
    (hk : k ≠ "cursor") :
    alistGet (fetch_paginated_api_data params ep cb responses).finalParams k
      = alistGet params k := by
  cases hv : alistGet params "siteIds" with
  | none => rw [fetch_missing_site params ep cb responses hv]
  | some v =>
      by_cases hveq : v = PVal.str ""
      · subst hveq
        rw [fetch_empty_site params ep cb responses hv]
      · rw [fetch_unfold_valid params ep cb responses v hv hveq]
        exact fetchLoop_frame _ cb responses none _ k hk

/-- Witness for C9: the `"limit"` key survives a two-page fetch that does
inject a cursor into the caller's dict. -/
theorem c9_witness :
    alistGet (fetch_paginated_api_data paramsW "cloud-detection/alerts" true
        (pagesW.map HttpResponse.ok)).finalParams "limit"
      = alistGet paramsW "limit"
    ∧ alistGet paramsW "limit" = some (PVal.int 1000) := by
  exact ⟨c9_params_frame paramsW "cloud-detection/alerts" true
    (pagesW.map HttpResponse.ok) "limit" (by decide), by decide⟩

/-- C10: when a page callback is supplied, it is invoked exactly once per
fetched page, with the cumulative page counts `1, 2, …, N` in order —
strictly increasing and starting at 1. -/
theorem c10_callback_once_per_page {α : Type} (params : List (String × PVal))
    (endpoint : String) (pages : List (Envelope α)) (chunks : List (List α))
    (cursors : List String) (v : PVal)
    (hv : alistGet params "siteIds" = some v) (hne : v ≠ PVal.str "")
    (hchain : ChainedScript (decide (endpoint = "sites")) pages chunks cursors) :
    (fetch_paginated_api_data params endpoint true
        (pages.map HttpResponse.ok)).callbackArgs = List.range' 1 pages.length
    ∧ (fetch_paginated_api_data params endpoint true
        (pages.map HttpResponse.ok)).callbackArgs.length = pages.length
    ∧ (fetch_paginated_api_data params endpoint true
        (pages.map HttpResponse.ok)).callbackArgs.Pairwise (· < ·) := by
  obtain ⟨o1, o2, o3, o4⟩ :=
    fetchLoop_chained (decide (endpoint = "sites")) true pages chunks cursors hchain
      none ⟨params, [], 0, [], []⟩
  rw [fetch_unfold_valid params endpoint true (pages.map HttpResponse.ok) v hv hne]
  refine ⟨by rw [o3]; simp, by rw [o3]; simp, ?_⟩
  rw [o3]
  simpa using List.pairwise_lt_range' 1 pages.length

/-- Witness for C10 at a concrete two-page chain. -/
theorem c10_witness :
    (fetch_paginated_api_data paramsW "cloud-detection/alerts" true
        (pagesW.map HttpResponse.ok)).callbackArgs = [1, 2] := by
  have h := c10_callback_once_per_page paramsW "cloud-detection/alerts"
    pagesW [[10], [20]] ["c1"] (PVal.str "s1") rfl (by decide)
    ⟨rfl, rfl, by decide, rfl, rfl⟩
  simpa using h.1

/-- C2: the orchestrator's two-tier failure policy.  (a) When every window
site's fetch either returns or raises the caught `ValueError`, the run
returns normally, every window site is fetched, and each site whose fetch
raised `ValueError` is recorded as Failed with zero records.  (b) When the
sites before some window position are survivable but that position's fetch
raises any error other than `ValueError`, the error escapes: the run raises
it and no site after the failing one is fetched. -/
theorem c2_two_tier_failure_policy {α : Type} (m : List (String × String))
    (rf : String → List (HttpResponse α)) :
    ((∀ p ∈ sitesWindow m, siteHandled rf p.1 = true) →
      ((sitesWindow m).map Prod.fst).Nodup →
        (∃ its, (extract_alerts m rf none).result = RunResult.returned its)
        ∧ (extract_alerts m rf none).fetchedSites = (sitesWindow m).map Prod.fst
        ∧ ∀ p ∈ sitesWindow m,
            (siteFetch rf p.1).outcome = FetchOutcome.error PyErr.valueError →
            alistGet (extract_alerts m rf none).statuses p.1
              = some ⟨p.2, 0, 0, SiteState.failed⟩)
    ∧ (∀ (pre : List (String × String)) (sB dB : String)
          (post : List (String × String)) (e : PyErr),
          sitesWindow m = pre ++ (sB, dB) :: post →
          (∀ p ∈ pre, siteHandled rf p.1 = true) →
          (siteFetch rf sB).outcome = FetchOutcome.error e →
          e ≠ PyErr.valueError →
          (extract_alerts m rf none).result = RunResult.raised e
          ∧ (extract_alerts m rf none).fetchedSites = pre.map Prod.fst ++ [sB]) := by
  constructor
  · intro hall hnodup
    obtain ⟨r1, r2, r3⟩ := runLoop_all_handled rf (sitesWindow m) 0 [] [] [] hall
    refine ⟨⟨_, by simpa [extract_alerts] using r1⟩,
      by simpa [extract_alerts] using r2, ?_⟩
    intro p hp ho
    have hmem : (p.1, p.2) ∈ sitesWindow m := by simpa using hp
    have hst := runLoop_status_mem rf (sitesWindow m) 0 [] [] [] p.1 p.2 hall
      hnodup hmem
    have ho' : (fetch_paginated_api_data (mkSiteParams p.1) alertsEndpoint true
        (rf p.1)).outcome = FetchOutcome.error PyErr.valueError := ho
    have htr := fetch_valueError_trace (mkSiteParams p.1) alertsEndpoint true
      (rf p.1) ho'
    have hpg : sitePages rf p.1 = 0 := by
      simp [sitePages, siteFetch, htr]
    show alistGet (runLoop rf none (sitesWindow m) 0 [] [] []).statuses p.1
      = some ⟨p.2, 0, 0, SiteState.failed⟩
    rw [hst]
    simp [siteRecord, ho, hpg]
  · intro pre sB dB post e heq hpre ho hne
    obtain ⟨r1, r2⟩ := runLoop_raise_at rf pre sB dB post 0 [] [] [] e hpre ho hne
    constructor
    · show (runLoop rf none (sitesWindow m) 0 [] [] []).result = RunResult.raised e
      rw [heq]; exact r1
    · show (runLoop rf none (sitesWindow m) 0 [] [] []).fetchedSites
        = pre.map Prod.fst ++ [sB]
      rw [heq]; simpa using r2

/-- Witness for C2: a window containing an empty-id site is survived with
that site recorded as Failed, while a transport failure at window position 2
raises and stops the run there. -/
theorem c2_witness :
    ((extract_alerts mInvalid rfOk none).fetchedSites = ["s5", "s6", "", "s8", "s9"]
      ∧ alistGet (extract_alerts mInvalid rfOk none).statuses ""
          = some ⟨"d7", 0, 0, SiteState.failed⟩)
    ∧ ((extract_alerts mPlain rfFail7 none).result
          = RunResult.raised PyErr.transportError
      ∧ (extract_alerts mPlain rfFail7 none).fetchedSites = ["s5", "s6", "s7"]) := by
  have ha := (c2_two_tier_failure_policy mInvalid rfOk).1 (by decide) (by decide)
  have hb := (c2_two_tier_failure_policy mPlain rfFail7).2
    [("s5", "d5"), ("s6", "d6")] "s7" "d7" [("s8", "d8"), ("s9", "d9")]
    PyErr.transportError (by decide) (by decide) (by decide) (by decide)
  refine ⟨⟨?_, ?_⟩, hb.1, ?_⟩
  · rw [ha.2.1]; decide
  · exact ha.2.2 ("", "d7") (by decide) (by decide)
  · rw [hb.2]; decide

/-- C4: an interrupt delivered after `k` window sites have completed and
before the next starts makes the run stop, return the aggregate of the
already-completed sites only, and record the interrupt instead of raising. -/
theorem c4_interrupt_partial_results {α : Type} (m : List (String × String))
    (rf : String → List (HttpResponse α)) (k : Nat)
    (hk : k < (sitesWindow m).length)
    (hdone : ∀ p ∈ (sitesWindow m).take k, siteCompleted rf p.1 = true) :
    (extract_alerts m rf (some k)).result
        = RunResult.returned
            ((((sitesWindow m).take k).map (fun p => siteItems rf p.1)).flatten)
    ∧ (extract_alerts m rf (some k)).interrupted = true
    ∧ (extract_alerts m rf (some k)).fetchedSites
        = ((sitesWindow m).take k).map Prod.fst := by
  obtain ⟨r1, r2, r3⟩ := runLoop_interrupted rf k (sitesWindow m) 0 [] [] [] hk hdone
  simp only [Nat.zero_add] at r1 r2 r3
  exact ⟨by simpa [extract_alerts] using r1, by simpa [extract_alerts] using r3,
    by simpa [extract_alerts] using r2⟩

/-- Witness for C4: interrupt before window position 2: the first two sites'
items are returned, the rest are never fetched, and nothing is raised. -/
theorem c4_witness :
    (extract_alerts mPlain rfOk (some 2)).result = RunResult.returned [7, 7]
    ∧ (extract_alerts mPlain rfOk (some 2)).interrupted = true
    ∧ (extract_alerts mPlain rfOk (some 2)).fetchedSites = ["s5", "s6"] := by
  have h := c4_interrupt_partial_results mPlain rfOk 2 (by decide) (by decide)
  refine ⟨?_, h.2.1, ?_⟩
  · rw [h.1]; decide
  · rw [h.2.2]; decide

/-- C7: the orchestrator operates on exactly the window `[5, 40)` of the
input ordering: the fetched sites always form a prefix of that window's ids
(so sites at indices 0–4 and at indices at least 40 are never fetched), and
when every window site is survivable the whole window is fetched. -/
theorem c7_window_5_40 {α : Type} (m : List (String × String))
    (rf : String → List (HttpResponse α)) (ib : Option Nat) :
    sitesWindow m = (m.drop 5).take 35
    ∧ (∃ k, (extract_alerts m rf ib).fetchedSites
        = ((sitesWindow m).map Prod.fst).take k)
    ∧ ((∀ p ∈ sitesWindow m, siteHandled rf p.1 = true) →
        (extract_alerts m rf none).fetchedSites = (sitesWindow m).map Prod.fst) := by
  refine ⟨rfl, ?_, ?_⟩
  · obtain ⟨k, hk⟩ := runLoop_fetched_prefix rf ib (sitesWindow m) 0 [] [] []
    exact ⟨k, by simpa [extract_alerts] using hk⟩
  · intro hall
    obtain ⟨r1, r2, r3⟩ := runLoop_all_handled rf (sitesWindow m) 0 [] [] [] hall
    simpa [extract_alerts] using r2

/-- Witness for C7 on 45 sites: exactly the 35 window sites are fetched and
the sites at indices 0–4 and at indices 40–44 are not. -/
theorem c7_witness :
    (extract_alerts mWide rfOk none).fetchedSites = (sitesWindow mWide).map Prod.fst
    ∧ (extract_alerts mWide rfOk none).fetchedSites.length = 35
    ∧ "0" ∉ (extract_alerts mWide rfOk none).fetchedSites
    ∧ "4" ∉ (extract_alerts mWide rfOk none).fetchedSites
    ∧ "40" ∉ (extract_alerts mWide rfOk none).fetchedSites
    ∧ "44" ∉ (extract_alerts mWide rfOk none).fetchedSites := by
  have h := (c7_window_5_40 mWide rfOk none).2.2 (by decide)
  refine ⟨h, ?_, ?_, ?_, ?_, ?_⟩ <;> rw [h] <;> decide

end Sentinelone
